import Mathlib

/-!
# Autodarts ESP32 client: connection lifecycle and state-change dispatch

A shallow embedding of `AutodartsCameras.h`, `AutodartsDetector.h`,
`AutodartsBoard.h` and `AutodartsClient.h`.

Conventions of the embedding.

* A member function that mutates its object is a function from the object
  before the call to the object after it; the handlers it invokes are returned
  alongside, in call order, as a list of `Call`s.
* A `std::function` slot holds a `Handler`, the identity of the stored
  callable. Invoking a slot is recorded as a `Call` carrying that identity and
  the arguments passed.
* `millis()` is an argument: the clock reading at the point of the call.
* The JSON library, the Arduino `String` class, the socket and the HTTP
  transport are external. A JSON document appears through the values its
  accessors yield at the C++ type of the assignment target
  (`JsonObjectConst`, `BoardJson`); the socket and the HTTP server appear
  through what they deliver (`WsEvent`, `TokenResponse`, `BoardsResponse`).
* `AutodartsDefines.h` is not part of the sources at hand. The `State` enum is
  represented by its integer value, `Status` and `Event` by their integer
  code, and the string conversions of the latter two are fields of `Defines`.
-/

namespace autodarts

/-! ## Handlers and their invocations -/

/-- Identity of a callable stored in a `std::function` slot. -/
abbrev Handler := Nat

/-- The empty lambda every slot is initialised with. -/
def Handler.none : Handler := 0

/-- One invocation of a handler slot, with the arguments passed. -/
inductive Call where
  | boardConnection (h : Handler) (name id : String) (isOpen : Bool)
  | cameraStats (h : Handler) (name id : String) (camId fps width height : Int)
  | cameraSystemState (h : Handler) (name id : String) (opened running : Int)
  | detectionStats (h : Handler) (name id : String) (fps width height : Int)
  | detectionState (h : Handler) (name id : String) (connected running numThrows : Int)
  | detectionEvent (h : Handler) (name id : String) (status event : Int)
  deriving DecidableEq, Repr

/-! ## Missing declarations -/

/-- The parts of `AutodartsDefines.h` and of the Arduino `String` class the
code relies on. `statusFromString c s` is the code held by a `Status` whose
code was `c` after `fromString(s)`; likewise for `Event`. -/
structure Defines where
  statusUnknown : Int
  eventUnknown : Int
  statusFromString : Int → Option String → Int
  eventFromString : Int → Option String → Int
  indexOf : String → Char → Int
  substring : String → Int → Option Int → String
  toInt : String → Int

/-! ## JSON documents, seen through their accessors -/

/-- A socket frame as `Detector::fromJson` and its callees read it: `type` is
`root["type"]` when it is a string, every other field is what the accessor
named after it yields at the C++ type it is assigned to (`bool`, `int8_t`,
`int16_t`). -/
structure JsonObjectConst where
  type : Option String
  connected : Bool
  running : Bool
  numThrows : Int
  status : Option String
  event : Option String
  fps8 : Int
  width : Int
  height : Int
  isOpened : Bool
  isRunning : Bool
  id8 : Int
  deriving DecidableEq, Repr

/-- Integral promotion of a `bool`. -/
def boolToInt (b : Bool) : Int := if b then 1 else 0

/-! ## `AutodartsCameras.h` -/

/-- Class `Camera`. Of the members declared by
`const String& _boardName, _boardId;` the first is a reference to the name of
the owning `Board` and the second a copy of the id the constructor was given;
the same holds in `CameraSystem` and `Detector`, each constructed with the
arguments of its owner. Both values are passed to the member functions that
read them: the name the board has at the call, and the copy of the id, which
the board keeps as `Board._detectorBoardId`. -/
structure Camera where
  _id : Int
  _fps : Int
  _width : Int
  _height : Int
  _onCameraStatsCallback : Handler
  deriving DecidableEq, Repr

/-- A camera as its constructor leaves it. -/
def Camera.new : Camera :=
  { _id := -1, _fps := -1, _width := -1, _height := -1,
    _onCameraStatsCallback := Handler.none }

/-- `Camera::fromJson`. -/
def Camera.fromJson (boardName boardId : String) (root : JsonObjectConst)
    (c : Camera) : Camera × List Call :=
  if root.type = some "cam_stats" then
    let c1 : Camera :=
      { c with _id := root.id8, _fps := root.fps8,
               _width := root.width, _height := root.height }
    (c1, [Call.cameraStats c1._onCameraStatsCallback boardName boardId
            c1._id c1._fps c1._width c1._height])
  else
    (c, [])

/-- `Camera::onCameraStats`. -/
def Camera.onCameraStats (callback : Handler) (c : Camera) : Camera :=
  { c with _onCameraStatsCallback := callback }

/-- The member `std::array<Camera, 3> _cameras`. -/
structure CameraArray where
  c0 : Camera
  c1 : Camera
  c2 : Camera
  deriving DecidableEq, Repr

/-- Number of elements, `_cameras.size()`. -/
def CameraArray.size : Int := 3

/-- Element access `_cameras[idx]` for an index below `size`. -/
def CameraArray.get (a : CameraArray) (idx : Int) : Camera :=
  if idx = 0 then a.c0 else if idx = 1 then a.c1 else a.c2

/-- Replacement of the element `_cameras[idx]`, for an index below `size`. -/
def CameraArray.set (a : CameraArray) (idx : Int) (c : Camera) : CameraArray :=
  if idx = 0 then { a with c0 := c }
  else if idx = 1 then { a with c1 := c }
  else { a with c2 := c }

/-- Class `CameraSystem`. -/
structure CameraSystem where
  _cameras : CameraArray
  _isOpened : Bool
  _isRunning : Bool
  _wasOpened : Bool
  _wasRunning : Bool
  _onCameraStatsCallback : Handler
  _onCameraSystemStateCallback : Handler
  deriving DecidableEq, Repr

/-- A camera system as its constructor leaves it. -/
def CameraSystem.new : CameraSystem :=
  { _cameras := ⟨Camera.new, Camera.new, Camera.new⟩,
    _isOpened := false, _isRunning := false,
    _wasOpened := false, _wasRunning := false,
    _onCameraStatsCallback := Handler.none,
    _onCameraSystemStateCallback := Handler.none }

/-- `CameraSystem::fromJson`. -/
def CameraSystem.fromJson (boardName boardId : String) (root : JsonObjectConst)
    (s : CameraSystem) : CameraSystem × List Call :=
  if root.type = some "cam_state" then
    let s1 : CameraSystem :=
      { s with _wasOpened := s._isOpened, _wasRunning := s._isRunning }
    let s2 : CameraSystem :=
      { s1 with _isOpened := root.isOpened, _isRunning := root.isRunning }
    let opened := 2 * boolToInt s2._isOpened - boolToInt s2._wasOpened
    let running := 2 * boolToInt s2._isRunning - boolToInt s2._wasRunning
    (s2, [Call.cameraSystemState s2._onCameraSystemStateCallback boardName boardId
            opened running])
  else if root.type = some "cam_stats" then
    let id := root.id8
    if id ≥ 0 ∧ id < CameraArray.size then
      let r := (s._cameras.get id).fromJson boardName boardId root
      ({ s with _cameras := s._cameras.set id r.1 }, r.2)
    else
      (s, [])
  else
    (s, [])

/-- `CameraSystem::onCameraStats`. -/
def CameraSystem.onCameraStats (callback : Handler) (s : CameraSystem) : CameraSystem :=
  { s with _onCameraStatsCallback := callback,
           _cameras := ⟨s._cameras.c0.onCameraStats callback,
                        s._cameras.c1.onCameraStats callback,
                        s._cameras.c2.onCameraStats callback⟩ }

/-- `CameraSystem::onCameraSystemState`. -/
def CameraSystem.onCameraSystemState (callback : Handler) (s : CameraSystem) :
    CameraSystem :=
  { s with _onCameraSystemStateCallback := callback }

/-! ## `AutodartsDetector.h` -/

/-- Class `Detector`. -/
structure Detector where
  _cameraSystem : CameraSystem
  _isConnected : Bool
  _isRunning : Bool
  _wasConnected : Bool
  _wasRunning : Bool
  _numThrows : Int
  _fps : Int
  _width : Int
  _height : Int
  _status : Int
  _event : Int
  _onCameraStatsCallback : Handler
  _onCameraSystemStateCallback : Handler
  _onDetectionStatsCallback : Handler
  _onDetectionStateCallback : Handler
  _onDetectionEventCallback : Handler
  deriving DecidableEq, Repr

/-- A detector as its constructor leaves it. -/
def Detector.new (env : Defines) : Detector :=
  { _cameraSystem := CameraSystem.new,
    _isConnected := false, _isRunning := false,
    _wasConnected := false, _wasRunning := false,
    _numThrows := -1, _fps := -1, _width := -1, _height := -1,
    _status := env.statusUnknown, _event := env.eventUnknown,
    _onCameraStatsCallback := Handler.none,
    _onCameraSystemStateCallback := Handler.none,
    _onDetectionStatsCallback := Handler.none,
    _onDetectionStateCallback := Handler.none,
    _onDetectionEventCallback := Handler.none }

/-- `Detector::fromJson`. -/
def Detector.fromJson (env : Defines) (boardName boardId : String)
    (root : JsonObjectConst) (d : Detector) : Detector × List Call :=
  if root.type = some "state" then
    let d1 : Detector :=
      { d with _wasConnected := d._isConnected, _wasRunning := d._isRunning }
    let d2 : Detector :=
      { d1 with _isConnected := root.connected, _isRunning := root.running,
                _numThrows := root.numThrows,
                _status := env.statusFromString d1._status root.status,
                _event := env.eventFromString d1._event root.event }
    let connected := 2 * boolToInt d2._isConnected - boolToInt d2._wasConnected
    let running := 2 * boolToInt d2._isRunning - boolToInt d2._wasRunning
    (d2, [Call.detectionState d2._onDetectionStateCallback boardName boardId
            connected running d2._numThrows,
          Call.detectionEvent d2._onDetectionEventCallback boardName boardId
            d2._status d2._event])
  else if root.type = some "stats" then
    let d1 : Detector :=
      { d with _fps := root.fps8, _width := root.width, _height := root.height }
    (d1, [Call.detectionStats d1._onDetectionStatsCallback boardName boardId
            d1._fps d1._width d1._height])
  else if root.type = some "motion_state" then
    (d, [])
  else
    let r := d._cameraSystem.fromJson boardName boardId root
    ({ d with _cameraSystem := r.1 }, r.2)

/-- `Detector::onCameraStats`. -/
def Detector.onCameraStats (callback : Handler) (d : Detector) : Detector :=
  { d with _onCameraStatsCallback := callback,
           _cameraSystem := d._cameraSystem.onCameraStats callback }

/-- `Detector::onCameraSystemState`. -/
def Detector.onCameraSystemState (callback : Handler) (d : Detector) : Detector :=
  { d with _onCameraSystemStateCallback := callback,
           _cameraSystem := d._cameraSystem.onCameraSystemState callback }

/-- `Detector::onDetectionStats`. -/
def Detector.onDetectionStats (callback : Handler) (d : Detector) : Detector :=
  { d with _onDetectionStatsCallback := callback }

/-- `Detector::onDetectionState`. -/
def Detector.onDetectionState (callback : Handler) (d : Detector) : Detector :=
  { d with _onDetectionStateCallback := callback }

/-- `Detector::onDetectionEvent`. -/
def Detector.onDetectionEvent (callback : Handler) (d : Detector) : Detector :=
  { d with _onDetectionEventCallback := callback }

/-! ## `AutodartsBoard.h` (variant with `ALTERNATE_WEBSOCKET` defined) -/

/-- Event kinds of the socket library, as listed in the handler's `switch`. -/
inductive WStype where
  | WStype_ERROR
  | WStype_DISCONNECTED
  | WStype_CONNECTED
  | WStype_TEXT
  | WStype_BIN
  | WStype_FRAGMENT_TEXT_START
  | WStype_FRAGMENT_BIN_START
  | WStype_FRAGMENT
  | WStype_FRAGMENT_FIN
  deriving DecidableEq, Repr

/-- One delivery of the socket to the registered handler: the event kind, the
document `deserializeJson` yields for the payload (with no member present when
the payload does not decode), and the clock reading when the handler reaches
`resetAlive()`. -/
structure WsEvent where
  type : WStype
  payload : JsonObjectConst
  millis : Nat
  deriving DecidableEq, Repr

/-- What this code has configured on its `WebSocketsClient _websocket`:
the arguments of the last `begin`, whether a handler was given to `onEvent`,
and the last value passed to `setReconnectInterval`. -/
structure WebSocketsClient where
  begun : Option (String × Int × String)
  hasHandler : Bool
  reconnectInterval : Option Nat
  deriving DecidableEq, Repr

/-- A socket nothing has been configured on. -/
def WebSocketsClient.new : WebSocketsClient :=
  { begun := none, hasHandler := false, reconnectInterval := none }

/-- Pointer of type `const char*` yielded by a JSON accessor: `none` is the
null pointer. -/
abbrev CStr := Option String

/-- The constructor `String(const char*)`: a null pointer gives the empty
string. -/
def CStr.toString (p : CStr) : String := p.getD ""

/-- A board descriptor as `Board::fromJson` reads it: each field is
`root[key].as<const char*>()`. -/
structure BoardJson where
  id : CStr
  name : CStr
  ip : CStr
  version : CStr
  deriving DecidableEq, Repr

/-- Class `Board`. `_detectorBoardId` is the member `_boardId` of `_detector`
(and of its camera system and cameras): the copy of `_id` taken when
`_detector(_name, _id)` was constructed, never assigned afterwards. -/
structure Board where
  _name : String
  _id : String
  _url : String
  _version : String
  _isOpen : Bool
  _lastAlive : Nat
  _detector : Detector
  _detectorBoardId : String
  _websocket : WebSocketsClient
  _onBoardConnectionCallback : Handler
  _onCameraStatsCallback : Handler
  _onCameraSystemStateCallback : Handler
  _onDetectionStatsCallback : Handler
  _onDetectionStateCallback : Handler
  _onDetectionEventCallback : Handler
  deriving DecidableEq, Repr

/-- `Board::fromJson`. -/
def Board.fromJson (root : BoardJson) (b : Board) : Board :=
  { b with _id := root.id.toString, _name := root.name.toString,
           _url := root.ip.toString, _version := root.version.toString }

/-- The state the member initialisers give a board before a constructor body
runs: `_detector(_name, _id)` copies the id, still empty. -/
def Board.init (env : Defines) : Board :=
  { _name := "", _id := "", _url := "", _version := "",
    _isOpen := false, _lastAlive := 0,
    _detector := Detector.new env, _detectorBoardId := "",
    _websocket := WebSocketsClient.new,
    _onBoardConnectionCallback := Handler.none,
    _onCameraStatsCallback := Handler.none,
    _onCameraSystemStateCallback := Handler.none,
    _onDetectionStatsCallback := Handler.none,
    _onDetectionStateCallback := Handler.none,
    _onDetectionEventCallback := Handler.none }

/-- The constructor `Board(const JsonObjectConst& json)`: `fromJson` runs in
the body, after `_detector` has copied the empty id. -/
def Board.ofJson (env : Defines) (json : BoardJson) : Board :=
  (Board.init env).fromJson json

/-- The constructor `Board(name, id, version, url)`: `_id(id)` is initialised
before `_detector(_name, _id)`, which copies it. -/
def Board.new (env : Defines) (name id version url : String) : Board :=
  { Board.init env with _name := name, _id := id, _version := version, _url := url,
                        _detectorBoardId := id }

/-- `Board::getName`. -/
def Board.getName (b : Board) : String := b._name

/-- `Board::getId`. -/
def Board.getId (b : Board) : String := b._id

/-- `Board::getVersion`. -/
def Board.getVersion (b : Board) : String := b._version

/-- `Board::getUrl`. -/
def Board.getUrl (b : Board) : String := b._url

/-- `Board::isOpen`. -/
def Board.isOpen (b : Board) : Bool := b._isOpen

/-- Subtraction of two `uint64_t` values. -/
def sub64 (a b : Nat) : Nat := (a % 2 ^ 64 + 2 ^ 64 - b % 2 ^ 64) % 2 ^ 64

/-- `Board::isAlive`, with `millis` the clock reading. -/
def Board.isAlive (millis : Nat) (b : Board) : Bool :=
  decide (sub64 millis b._lastAlive < 10000)

/-- `Board::resetAlive`, with `millis` the clock reading. -/
def Board.resetAlive (millis : Nat) (b : Board) : Board :=
  { b with _lastAlive := millis % 2 ^ 64 }

/-- The lambda `Board::open` registers with `_websocket.onEvent`. -/
def Board.onEvent (env : Defines) (ev : WsEvent) (b : Board) : Board × List Call :=
  let r : Board × List Call :=
    match ev.type with
    | WStype.WStype_CONNECTED =>
        let b1 : Board := { b with _isOpen := true }
        (b1, [Call.boardConnection b1._onBoardConnectionCallback b1._name b1._id b1._isOpen])
    | WStype.WStype_DISCONNECTED =>
        let b1 : Board := { b with _isOpen := false }
        (b1, [Call.boardConnection b1._onBoardConnectionCallback b1._name b1._id b1._isOpen])
    | WStype.WStype_TEXT =>
        let d := b._detector.fromJson env b._name b._detectorBoardId ev.payload
        ({ b with _detector := d.1 }, d.2)
    | WStype.WStype_BIN => (b, [])
    | WStype.WStype_ERROR => (b, [])
    | WStype.WStype_FRAGMENT_TEXT_START => (b, [])
    | WStype.WStype_FRAGMENT_BIN_START => (b, [])
    | WStype.WStype_FRAGMENT => (b, [])
    | WStype.WStype_FRAGMENT_FIN => (b, [])
  (r.1.resetAlive ev.millis, r.2)

/-- The socket delivering a sequence of events: each goes to the handler
given to `onEvent`; a socket without a handler has nobody to deliver to. -/
def Board.deliver (env : Defines) : List WsEvent → Board → Board × List Call
  | [], b => (b, [])
  | ev :: evs, b =>
      if b._websocket.hasHandler then
        let r := b.onEvent env ev
        let rest := Board.deliver env evs r.1
        (rest.1, r.2 ++ rest.2)
      else
        Board.deliver env evs b

/-- `Board::open`. -/
def Board.open (env : Defines) (force : Bool) (b : Board) : Bool × Board :=
  if !force && b.isOpen then
    (true, b)
  else if b._url.isEmpty then
    (false, b)
  else
    let index := env.indexOf b._url ':'
    let address := env.substring b._url 0 (some index)
    let port := env.toInt (env.substring b._url (index + 1) none)
    let ws1 : WebSocketsClient :=
      { b._websocket with begun := some (address, port, "/api/events") }
    let ws2 : WebSocketsClient := { ws1 with hasHandler := true }
    let ws3 : WebSocketsClient := { ws2 with reconnectInterval := some 5000 }
    (true, { b with _websocket := ws3 })

/-- `Board::close`. `onDisconnect` is what the socket delivers to the handler
while `_websocket.disconnect()` runs; a client that is connected reports the
disconnection there, as a `WStype_DISCONNECTED` event. -/
def Board.close (env : Defines) (onDisconnect : List WsEvent) (b : Board) :
    Board × List Call :=
  let r := b.deliver env onDisconnect
  ({ r.1 with _isOpen := false }, r.2)

/-- `Board::update`. `onLoop` is what the socket delivers to the handler while
`_websocket.loop()` runs, `millis` the clock reading in `isAlive()`, and
`onDisconnect` what the socket delivers while `close()` disconnects it. -/
def Board.update (env : Defines) (onLoop : List WsEvent) (millis : Nat)
    (onDisconnect : List WsEvent) (b : Board) : Bool × Board × List Call :=
  let r := b.deliver env onLoop
  if r.1.isOpen && !r.1.isAlive millis then
    let c := r.1.close env onDisconnect
    (false, c.1, r.2 ++ c.2)
  else
    (false, r.1, r.2)

/-- `Board::onBoardConnection`. -/
def Board.onBoardConnection (callback : Handler) (b : Board) : Board :=
  { b with _onBoardConnectionCallback := callback }

/-- `Board::onCameraStats`. -/
def Board.onCameraStats (callback : Handler) (b : Board) : Board :=
  { b with _onCameraStatsCallback := callback,
           _detector := b._detector.onCameraStats callback }

/-- `Board::onCameraSystemState`. -/
def Board.onCameraSystemState (callback : Handler) (b : Board) : Board :=
  { b with _onCameraSystemStateCallback := callback,
           _detector := b._detector.onCameraSystemState callback }

/-- `Board::onDetectionStats`. -/
def Board.onDetectionStats (callback : Handler) (b : Board) : Board :=
  { b with _onDetectionStatsCallback := callback,
           _detector := b._detector.onDetectionStats callback }

/-- `Board::onDetectionState`. -/
def Board.onDetectionState (callback : Handler) (b : Board) : Board :=
  { b with _onDetectionStateCallback := callback,
           _detector := b._detector.onDetectionState callback }

/-- `Board::onDetectionEvent`. -/
def Board.onDetectionEvent (callback : Handler) (b : Board) : Board :=
  { b with _onDetectionEventCallback := callback,
           _detector := b._detector.onDetectionEvent callback }

/-! ## `AutodartsClient.h` -/

/-- The codes of the HTTP client library the code compares against and
returns. -/
def HTTP_CODE_OK : Int := 200

/-- Code returned when a refresh is skipped. -/
def HTTP_CODE_NOT_MODIFIED : Int := 304

/-- Code returned when the access token is empty or outdated. -/
def HTTP_CODE_UNAUTHORIZED : Int := 401

/-- Code returned when a response body does not deserialize. -/
def HTTP_CODE_INTERNAL_SERVER_ERROR : Int := 500

/-- The type `Client::Token`, a `std::pair<String, uint64_t>`. -/
structure Token where
  first : String
  second : Nat
  deriving DecidableEq, Repr

/-- A request sent through an `HTTPClient`. -/
inductive HttpRequest where
  | postToken (username password : String)
  | postTicket (bearer : String)
  | getBoards (bearer : String)
  deriving DecidableEq, Repr

/-- What the token endpoint answers: `ret` is the value of `httpClient.POST`,
`body` is `none` when `deserializeJson` reports an error and otherwise holds
`doc["access_token"].as<const char*>()` and
`doc["expires_in"].as<uint64_t>()`. -/
structure TokenResponse where
  ret : Int
  body : Option (CStr × Nat)
  deriving DecidableEq, Repr

/-- What the boards endpoint answers: `ret` is the value of `httpClient.GET`;
`first` and `rest` are the results of the successive `deserializeJson` calls
of the `do`/`while` loop, one per iteration, `none` standing for an error. -/
structure BoardsResponse where
  ret : Int
  first : Option BoardJson
  rest : List (Option BoardJson)
  deriving DecidableEq, Repr

/-- Class `Client`. -/
structure Client where
  _ticket : String
  _accessToken : Token
  _boards : List Board
  _lastChecked : Nat
  _onBoardConnectionCallback : Handler
  _onCameraStatsCallback : Handler
  _onCameraSystemStateCallback : Handler
  _onDetectionStatsCallback : Handler
  _onDetectionStateCallback : Handler
  _onDetectionEventCallback : Handler
  deriving DecidableEq, Repr

/-- A client as its member initialisers leave it. -/
def Client.new : Client :=
  { _ticket := "", _accessToken := ⟨"", 0⟩, _boards := [], _lastChecked := 0,
    _onBoardConnectionCallback := Handler.none,
    _onCameraStatsCallback := Handler.none,
    _onCameraSystemStateCallback := Handler.none,
    _onDetectionStatsCallback := Handler.none,
    _onDetectionStateCallback := Handler.none,
    _onDetectionEventCallback := Handler.none }

/-- `Client::addBoard(BoardPtr&)`. -/
def Client.addBoard (board : Board) (c : Client) : Client :=
  let b1 := board.onBoardConnection c._onBoardConnectionCallback
  let b2 := b1.onCameraStats c._onCameraStatsCallback
  let b3 := b2.onCameraSystemState c._onCameraSystemStateCallback
  let b4 := b3.onDetectionStats c._onDetectionStatsCallback
  let b5 := b4.onDetectionState c._onDetectionStateCallback
  let b6 := b5.onDetectionEvent c._onDetectionEventCallback
  { c with _boards := c._boards ++ [b6] }

/-- `Client::addBoard(const JsonObjectConst&)`. -/
def Client.addBoardJson (env : Defines) (json : BoardJson) (c : Client) : Client :=
  c.addBoard (Board.ofJson env json)

/-- `Client::addBoard(name, id, version, url)`. -/
def Client.addBoardUrl (env : Defines) (name id version url : String) (c : Client) :
    Client :=
  c.addBoard (Board.new env name id version url)

/-- `String::equals(const char*)`. -/
def equals (s : String) (cstr : CStr) : Bool :=
  if s.length = 0 then
    decide (cstr = none ∨ cstr = some "")
  else
    match cstr with
    | none => false
    | some t => decide (s = t)

/-- `Client::requestAccessToken`. `millis0` is the clock reading in the
validity check, `millis1` the one when the new expiry is computed, `resp` the
answer to the request if one is sent. The result is the return value, the
token object after the call and the requests sent. -/
def Client.requestAccessToken (username password : String) (accessToken : Token)
    (forceUpdate : Bool) (millis0 : Nat) (resp : TokenResponse) (millis1 : Nat) :
    Int × Token × List HttpRequest :=
  if !forceUpdate && decide (accessToken.second > millis0) then
    (HTTP_CODE_OK, accessToken, [])
  else
    let ret := resp.ret
    if ret = HTTP_CODE_OK then
      match resp.body with
      | none => (HTTP_CODE_INTERNAL_SERVER_ERROR, accessToken, [HttpRequest.postToken username password])
      | some doc =>
          let t1 : Token := { accessToken with first := doc.1.toString }
          let t2 : Token :=
            { t1 with second := (millis1 % 2 ^ 64 + (doc.2 * 1000) % 2 ^ 64) % 2 ^ 64 }
          (ret, t2, [HttpRequest.postToken username password])
    else
      (ret, accessToken, [HttpRequest.postToken username password])

/-- The search loop of `Client::requestBoards`: the first board whose id
equals `doc["id"]` is updated from the document; the flag is `found`. -/
def Client.updateExisting (doc : BoardJson) : List Board → List Board × Bool
  | [] => ([], false)
  | board :: boards =>
      if equals board.getId doc.id then
        (board.fromJson doc :: boards, true)
      else
        let r := Client.updateExisting doc boards
        (board :: r.1, r.2)

/-- One iteration of the `do`/`while` loop of `Client::requestBoards`, for the
result `r` of its `deserializeJson` call. The vector `boards` is the client's
own `_boards`, as in the call from `autoDetectBoards`. -/
def Client.mergeStep (env : Defines) (r : Option BoardJson) (c : Client) : Client :=
  match r with
  | none => c
  | some doc =>
      let u := Client.updateExisting doc c._boards
      let c1 : Client := { c with _boards := u.1 }
      if !u.2 then
        let board := Board.ofJson env doc
        if board.getUrl.isEmpty then c1 else c1.addBoard board
      else
        c1

/-- `Client::requestBoards`, called on the client's own `_boards`. `millis` is
the clock reading in the validity check, `resp` the answer to the request if
one is sent. -/
def Client.requestBoards (env : Defines) (accessToken : Token) (millis : Nat)
    (resp : BoardsResponse) (c : Client) : Int × Client × List HttpRequest :=
  if accessToken.first.isEmpty || decide (accessToken.second < millis) then
    (HTTP_CODE_UNAUTHORIZED, c, [])
  else
    let ret := resp.ret
    if ret = HTTP_CODE_OK then
      (ret, (resp.first :: resp.rest).foldl (fun acc r => Client.mergeStep env r acc) c,
        [HttpRequest.getBoards accessToken.first])
    else
      (ret, c, [HttpRequest.getBoards accessToken.first])

/-- `Client::onBoardConnection`. -/
def Client.onBoardConnection (callback : Handler) (c : Client) : Client :=
  { c with _onBoardConnectionCallback := callback,
           _boards := c._boards.map (fun board => board.onBoardConnection callback) }

/-- `Client::onCameraStats`. -/
def Client.onCameraStats (callback : Handler) (c : Client) : Client :=
  { c with _onCameraStatsCallback := callback,
           _boards := c._boards.map (fun board => board.onCameraStats callback) }

/-- `Client::onCameraSystemState`. -/
def Client.onCameraSystemState (callback : Handler) (c : Client) : Client :=
  { c with _onCameraSystemStateCallback := callback,
           _boards := c._boards.map (fun board => board.onCameraSystemState callback) }

/-- `Client::onDetectionStats`. -/
def Client.onDetectionStats (callback : Handler) (c : Client) : Client :=
  { c with _onDetectionStatsCallback := callback,
           _boards := c._boards.map (fun board => board.onDetectionStats callback) }

/-- `Client::onDetectionState`. -/
def Client.onDetectionState (callback : Handler) (c : Client) : Client :=
  { c with _onDetectionStateCallback := callback,
           _boards := c._boards.map (fun board => board.onDetectionState callback) }

/-- `Client::onDetectionEvent`. -/
def Client.onDetectionEvent (callback : Handler) (c : Client) : Client :=
  { c with _onDetectionEventCallback := callback,
           _boards := c._boards.map (fun board => board.onDetectionEvent callback) }

/-! ## Sample data used to evaluate the definitions -/

/-- An instance of the missing declarations: code `0` is `UNKNOWN`, a string
conversion keeps the code held, and the `String` helpers split `host:port` at
no position. -/
def sampleDefines : Defines :=
  { statusUnknown := 0, eventUnknown := 0,
    statusFromString := fun c _ => c, eventFromString := fun c _ => c,
    indexOf := fun _ _ => -1, substring := fun s _ _ => s, toInt := fun _ => 0 }

/-- A frame none of whose members is present. -/
def emptyFrame : JsonObjectConst :=
  { type := none, connected := false, running := false, numThrows := 0,
    status := none, event := none, fps8 := 0, width := 0, height := 0,
    isOpened := false, isRunning := false, id8 := 0 }

/-- The board `A` at `10.0.0.1:3180`, freshly constructed. -/
def sampleBoard : Board :=
  Board.new sampleDefines "Board A" "A" "0.18" "10.0.0.1:3180"

/-- The board `A` with connection handler `7`, after `open()` and the
connected event of the socket at clock reading `0`. -/
def openedBoard : Board :=
  ((((sampleBoard.onBoardConnection 7).open sampleDefines false).2).onEvent sampleDefines
    { type := WStype.WStype_CONNECTED, payload := emptyFrame, millis := 0 }).1

/-- The open board `A` followed by a closed board `B`. -/
def sampleRegistry : Client :=
  (Client.new.addBoard openedBoard).addBoardUrl sampleDefines "Board B" "B" "0.18" "10.0.0.2:3180"

/-! ## Members that may be absent -/

/-- What the accessors of the JSON library yield: for a member that is absent
from the document, at an integer and at a boolean target type, and for an
integer member that is present, read at `int8_t` and at `int16_t`. -/
structure JsonLibrary where
  absentInt : Int
  absentBool : Bool
  int8 : Int → Int
  int16 : Int → Int

/-- ArduinoJson, the library the sources include: converting an absent member
yields the default value of the target type, `0` and `false`; an integer that
fits the target type is passed on, one that does not is read as `0`. -/
def arduinoJson : JsonLibrary :=
  { absentInt := 0, absentBool := false,
    int8 := fun n => if -128 ≤ n ∧ n ≤ 127 then n else 0,
    int16 := fun n => if -32768 ≤ n ∧ n ≤ 32767 then n else 0 }

/-- A socket frame by its members, `none` for a member that is absent. The
names follow the socket protocol: `fps`, `width` and `height` are `data.fps`,
`data.resolution.width` and `data.resolution.height`. -/
structure FrameMembers where
  type : Option String
  connected : Option Bool
  running : Option Bool
  numThrows : Option Int
  status : Option String
  event : Option String
  fps : Option Int
  width : Option Int
  height : Option Int
  isOpened : Option Bool
  isRunning : Option Bool
  id : Option Int
  deriving DecidableEq, Repr

/-- The frame as the accessors of the library present it to
`Detector::fromJson`: `fps` and `id` are read at `int8_t`, `numThrows`,
`width` and `height` at `int16_t`. -/
def FrameMembers.accessors (lib : JsonLibrary) (m : FrameMembers) : JsonObjectConst :=
  { type := m.type,
    connected := m.connected.getD lib.absentBool,
    running := m.running.getD lib.absentBool,
    numThrows := (m.numThrows.map lib.int16).getD lib.absentInt,
    status := m.status, event := m.event,
    fps8 := (m.fps.map lib.int8).getD lib.absentInt,
    width := (m.width.map lib.int16).getD lib.absentInt,
    height := (m.height.map lib.int16).getD lib.absentInt,
    isOpened := m.isOpened.getD lib.absentBool,
    isRunning := m.isRunning.getD lib.absentBool,
    id8 := (m.id.map lib.int8).getD lib.absentInt }

/-- A frame with no member at all. -/
def FrameMembers.empty : FrameMembers :=
  { type := none, connected := none, running := none, numThrows := none,
    status := none, event := none, fps := none, width := none, height := none,
    isOpened := none, isRunning := none, id := none }

/-! ## Event kinds and the slots that hold their handlers -/

/-- The six kinds of event a handler can be registered for. -/
inductive EventKind where
  | boardConnection
  | cameraStats
  | cameraSystemState
  | detectionStats
  | detectionState
  | detectionEvent
  deriving DecidableEq, Repr

/-- The subscription function of `Client` for kind `k`. -/
def Client.on (k : EventKind) (callback : Handler) (c : Client) : Client :=
  match k with
  | EventKind.boardConnection => c.onBoardConnection callback
  | EventKind.cameraStats => c.onCameraStats callback
  | EventKind.cameraSystemState => c.onCameraSystemState callback
  | EventKind.detectionStats => c.onDetectionStats callback
  | EventKind.detectionState => c.onDetectionState callback
  | EventKind.detectionEvent => c.onDetectionEvent callback

/-- The subscription function of `Board` for kind `k`. -/
def Board.on (k : EventKind) (callback : Handler) (b : Board) : Board :=
  match k with
  | EventKind.boardConnection => b.onBoardConnection callback
  | EventKind.cameraStats => b.onCameraStats callback
  | EventKind.cameraSystemState => b.onCameraSystemState callback
  | EventKind.detectionStats => b.onDetectionStats callback
  | EventKind.detectionState => b.onDetectionState callback
  | EventKind.detectionEvent => b.onDetectionEvent callback

/-- The slot of the client for kind `k`. -/
def Client.slot (k : EventKind) (c : Client) : Handler :=
  match k with
  | EventKind.boardConnection => c._onBoardConnectionCallback
  | EventKind.cameraStats => c._onCameraStatsCallback
  | EventKind.cameraSystemState => c._onCameraSystemStateCallback
  | EventKind.detectionStats => c._onDetectionStatsCallback
  | EventKind.detectionState => c._onDetectionStateCallback
  | EventKind.detectionEvent => c._onDetectionEventCallback

/-- The slots for kind `k` in a board and in the components it owns, from the
board down: the board, and where the class declares such a slot its detector,
the camera system, and the three cameras. -/
def Board.slots (k : EventKind) (b : Board) : List Handler :=
  match k with
  | EventKind.boardConnection => [b._onBoardConnectionCallback]
  | EventKind.cameraStats =>
      [b._onCameraStatsCallback, b._detector._onCameraStatsCallback,
       b._detector._cameraSystem._onCameraStatsCallback,
       b._detector._cameraSystem._cameras.c0._onCameraStatsCallback,
       b._detector._cameraSystem._cameras.c1._onCameraStatsCallback,
       b._detector._cameraSystem._cameras.c2._onCameraStatsCallback]
  | EventKind.cameraSystemState =>
      [b._onCameraSystemStateCallback, b._detector._onCameraSystemStateCallback,
       b._detector._cameraSystem._onCameraSystemStateCallback]
  | EventKind.detectionStats =>
      [b._onDetectionStatsCallback, b._detector._onDetectionStatsCallback]
  | EventKind.detectionState =>
      [b._onDetectionStateCallback, b._detector._onDetectionStateCallback]
  | EventKind.detectionEvent =>
      [b._onDetectionEventCallback, b._detector._onDetectionEventCallback]

/-! ## Theorems -/

/-- C1. On a `state` frame `Detector::fromJson` passes to the detection-state
handler, for the signals connected and running, the value `2*c - p` where `c`
is the frame's value and `p` the value stored as current before the frame,
together with the frame's `numThrows`; on a `cam_state` frame
`CameraSystem::fromJson` does the same for the signals opened and running.
With false = 0 and true = 1 the four values are 0, -1, 2 and 1. -/
theorem C1_edge_value_passed (env : Defines) (boardName boardId : String)
    (root : JsonObjectConst) (d : Detector) (s : CameraSystem) :
    (d.fromJson env boardName boardId { root with type := some "state" }).2 =
        [Call.detectionState d._onDetectionStateCallback boardName boardId
            (2 * boolToInt root.connected - boolToInt d._isConnected)
            (2 * boolToInt root.running - boolToInt d._isRunning)
            root.numThrows,
         Call.detectionEvent d._onDetectionEventCallback boardName boardId
            (env.statusFromString d._status root.status)
            (env.eventFromString d._event root.event)] ∧
    (s.fromJson boardName boardId { root with type := some "cam_state" }).2 =
        [Call.cameraSystemState s._onCameraSystemStateCallback boardName boardId
            (2 * boolToInt root.isOpened - boolToInt s._isOpened)
            (2 * boolToInt root.isRunning - boolToInt s._isRunning)] ∧
    (2 * boolToInt false - boolToInt false = 0 ∧
     2 * boolToInt false - boolToInt true = -1 ∧
     2 * boolToInt true - boolToInt false = 2 ∧
     2 * boolToInt true - boolToInt true = 1) := by
  refine ⟨?_, ?_, ?_⟩
  · simp [Detector.fromJson]
  · simp [CameraSystem.fromJson]
  · simp [boolToInt]

/-- C1, the scenario of the specification: previous values false and false, a
`state` frame with connected true, running false and zero throws gives the
connected edge 2, the running edge 0 and 0 throws. -/
theorem C1_edge_value_passed_witness :
    ((Detector.new sampleDefines).fromJson sampleDefines "Board A" "A"
        { emptyFrame with type := some "state", connected := true,
                          running := false, numThrows := 0 }).2 =
      [Call.detectionState Handler.none "Board A" "A" 2 0 0,
       Call.detectionEvent Handler.none "Board A" "A" 0 0] := by
  exact (C1_edge_value_passed sampleDefines "Board A" "A"
      { emptyFrame with connected := true, running := false, numThrows := 0 }
      (Detector.new sampleDefines) CameraSystem.new).1

/-! ### Heartbeat -/

/-- On clock readings that fit 64 bits and are in order, `sub64` is the
difference. -/
theorem sub64_of_le (a b : Nat) (hab : b ≤ a) (ha : a < 2 ^ 64) :
    sub64 a b = a - b := by
  unfold sub64
  omega

/-- A socket that delivers nothing leaves the board as it is. -/
theorem Board.deliver_nil (env : Defines) (b : Board) :
    Board.deliver env [] b = (b, []) := rfl

/-- Whatever the socket delivers while it disconnects, `close` leaves the
board closed. -/
theorem Board.close_isOpen (env : Defines) (evs : List WsEvent) (b : Board) :
    (b.close env evs).1.isOpen = false := rfl

/-- The first branch of `update`: an open board whose heartbeat has lapsed is
closed. -/
theorem Board.update_of_lapsed (env : Defines) (onLoop : List WsEvent) (millis : Nat)
    (onDisconnect : List WsEvent) (b : Board)
    (h : ((b.deliver env onLoop).1.isOpen && !(b.deliver env onLoop).1.isAlive millis) = true) :
    b.update env onLoop millis onDisconnect =
      (false, ((b.deliver env onLoop).1.close env onDisconnect).1,
        (b.deliver env onLoop).2 ++ ((b.deliver env onLoop).1.close env onDisconnect).2) := by
  simp only [Board.update, h, if_true]

/-- The second branch of `update`: otherwise servicing the socket is all that
happens. -/
theorem Board.update_of_not_lapsed (env : Defines) (onLoop : List WsEvent) (millis : Nat)
    (onDisconnect : List WsEvent) (b : Board)
    (h : ((b.deliver env onLoop).1.isOpen && !(b.deliver env onLoop).1.isAlive millis) = false) :
    b.update env onLoop millis onDisconnect =
      (false, (b.deliver env onLoop).1, (b.deliver env onLoop).2) := by
  simp [Board.update, h]

/-- C2. A board that is Open with `lastAlive = T`, updated in a tick in which
the socket delivers no event: at a clock reading `now ≥ T + 10000` it is left
Closed, at a clock reading `now` with `T ≤ now < T + 10000` (so at
`T + 9999`) it is left Open. -/
theorem C2_heartbeat_timeout (env : Defines) (b : Board) (T now : Nat)
    (onDisconnect : List WsEvent)
    (hopen : b.isOpen = true) (hT : b._lastAlive = T) (hnow : now < 2 ^ 64) :
    (T + 10000 ≤ now → (b.update env [] now onDisconnect).2.1.isOpen = false) ∧
    (T ≤ now → now < T + 10000 → (b.update env [] now onDisconnect).2.1.isOpen = true) := by
  constructor
  · intro h
    have hs : sub64 now b._lastAlive = now - T := by
      rw [hT]; exact sub64_of_le now T (by omega) hnow
    rw [Board.update_of_lapsed]
    · rfl
    · simp [Board.deliver_nil, hopen, Board.isAlive, hs]
      omega
  · intro h1 h2
    have hs : sub64 now b._lastAlive = now - T := by
      rw [hT]; exact sub64_of_le now T h1 hnow
    rw [Board.update_of_not_lapsed]
    · simpa [Board.deliver_nil] using hopen
    · simp [Board.deliver_nil, hopen, Board.isAlive, hs]
      omega

/-- C2 at `T = 5`: the update at 10005 closes the open board, the update at
10004 leaves it open. -/
theorem C2_heartbeat_timeout_witness :
    ({ sampleBoard with _isOpen := true, _lastAlive := 5 } : Board).isOpen = true ∧
    (({ sampleBoard with _isOpen := true, _lastAlive := 5 } : Board).update
        sampleDefines [] 10005 []).2.1.isOpen = false ∧
    (({ sampleBoard with _isOpen := true, _lastAlive := 5 } : Board).update
        sampleDefines [] 10004 []).2.1.isOpen = true :=
  ⟨rfl,
   (C2_heartbeat_timeout sampleDefines { sampleBoard with _isOpen := true, _lastAlive := 5 }
      5 10005 [] rfl rfl (by norm_num)).1 (by norm_num),
   (C2_heartbeat_timeout sampleDefines { sampleBoard with _isOpen := true, _lastAlive := 5 }
      5 10004 [] rfl rfl (by norm_num)).2 (by norm_num) (by norm_num)⟩

/-- The clock reading of the event is what the handler stores. -/
theorem Board.onEvent_lastAlive (env : Defines) (ev : WsEvent) (b : Board) :
    (b.onEvent env ev).1._lastAlive = ev.millis % 2 ^ 64 := rfl

/-- Events stamped between `lo` and `hi` keep the heartbeat between `lo` and
`hi`. -/
theorem Board.deliver_lastAlive_bounds (env : Defines) (lo hi : Nat) (hhi : hi < 2 ^ 64)
    (evs : List WsEvent) :
    ∀ b : Board, lo ≤ b._lastAlive ∧ b._lastAlive ≤ hi →
      (∀ e ∈ evs, lo ≤ e.millis ∧ e.millis ≤ hi) →
      lo ≤ (b.deliver env evs).1._lastAlive ∧ (b.deliver env evs).1._lastAlive ≤ hi := by
  induction evs with
  | nil => intro b hb _; simpa [Board.deliver] using hb
  | cons ev evs ih =>
      intro b hb hev
      have hev0 := hev ev (List.mem_cons_self _ _)
      have hrest : ∀ e ∈ evs, lo ≤ e.millis ∧ e.millis ≤ hi :=
        fun e he => hev e (List.mem_cons_of_mem _ he)
      by_cases hh : b._websocket.hasHandler = true
      · simp only [Board.deliver, hh, if_true]
        apply ih _ _ hrest
        rw [Board.onEvent_lastAlive, Nat.mod_eq_of_lt (by omega)]
        exact hev0
      · simp only [Board.deliver, hh]
        exact ih b hb hrest

/-- C10. Whatever event the socket hands to the board's handler, `lastAlive`
is the clock reading of that moment when the handler returns. Hence at an
update at a clock reading `now` before that moment plus 10000, whatever the
socket delivers in between, the timeout branch is not taken: the update
amounts to servicing the socket, and with nothing delivered the board is left
exactly as it was. -/
theorem C10_any_event_refreshes_heartbeat (env : Defines) (ev : WsEvent) (b : Board)
    (hev : ev.millis < 2 ^ 64) :
    (b.onEvent env ev).1._lastAlive = ev.millis ∧
    (∀ (onLoop : List WsEvent) (now : Nat) (onDisconnect : List WsEvent),
      ev.millis ≤ now → now < ev.millis + 10000 → now < 2 ^ 64 →
      (∀ e ∈ onLoop, ev.millis ≤ e.millis ∧ e.millis ≤ now) →
      (b.onEvent env ev).1.update env onLoop now onDisconnect =
        (false, ((b.onEvent env ev).1.deliver env onLoop).1,
          ((b.onEvent env ev).1.deliver env onLoop).2)) ∧
    (∀ (now : Nat) (onDisconnect : List WsEvent),
      ev.millis ≤ now → now < ev.millis + 10000 → now < 2 ^ 64 →
      (b.onEvent env ev).1.update env [] now onDisconnect =
        (false, (b.onEvent env ev).1, [])) := by
  have h1 : (b.onEvent env ev).1._lastAlive = ev.millis := by
    rw [Board.onEvent_lastAlive, Nat.mod_eq_of_lt hev]
  have h2 : ∀ (onLoop : List WsEvent) (now : Nat) (onDisconnect : List WsEvent),
      ev.millis ≤ now → now < ev.millis + 10000 → now < 2 ^ 64 →
      (∀ e ∈ onLoop, ev.millis ≤ e.millis ∧ e.millis ≤ now) →
      (b.onEvent env ev).1.update env onLoop now onDisconnect =
        (false, ((b.onEvent env ev).1.deliver env onLoop).1,
          ((b.onEvent env ev).1.deliver env onLoop).2) := by
    intro onLoop now onDisconnect hle hlt hnow hstamps
    have hb := Board.deliver_lastAlive_bounds env ev.millis now hnow onLoop
      (b.onEvent env ev).1 ⟨by omega, by omega⟩ hstamps
    apply Board.update_of_not_lapsed
    have hs := sub64_of_le now _ hb.2 hnow
    have : Board.isAlive now ((b.onEvent env ev).1.deliver env onLoop).1 = true := by
      simp only [Board.isAlive, hs, decide_eq_true_eq]
      omega
    simp [this]
  refine ⟨h1, h2, ?_⟩
  intro now onDisconnect hle hlt hnow
  have := h2 [] now onDisconnect hle hlt hnow (by simp)
  simpa [Board.deliver_nil] using this

/-- C10 on the open board `A`: a text frame that does not decode, handled at
clock reading 100, sets `lastAlive` to 100, and the update at 10099 leaves the
board open. -/
theorem C10_any_event_refreshes_heartbeat_witness :
    (100 : Nat) < 2 ^ 64 ∧
    (openedBoard.onEvent sampleDefines
      { type := WStype.WStype_TEXT, payload := emptyFrame, millis := 100 }).1._lastAlive = 100 ∧
    ((openedBoard.onEvent sampleDefines
      { type := WStype.WStype_TEXT, payload := emptyFrame, millis := 100 }).1.update
        sampleDefines [] 10099 []).2.1.isOpen = true := by
  have h := C10_any_event_refreshes_heartbeat sampleDefines
    { type := WStype.WStype_TEXT, payload := emptyFrame, millis := 100 } openedBoard
    (by norm_num)
  refine ⟨by norm_num, h.1, ?_⟩
  rw [h.2.2 10099 [] (by norm_num) (by norm_num) (by norm_num)]
  rfl

/-! ### Opening a board -/

/-- The guard of the `cam_stats` branch: when the id read into the `int8_t`
local is not in `[0, 3)`, nothing is written and nobody is called. -/
theorem CameraSystem.fromJson_cam_stats_skipped (boardName boardId : String)
    (root : JsonObjectConst) (s : CameraSystem) (hid : ¬ (0 ≤ root.id8 ∧ root.id8 < 3)) :
    s.fromJson boardName boardId { root with type := some "cam_stats" } = (s, []) := by
  have h : ¬ (root.id8 ≥ 0 ∧ root.id8 < CameraArray.size) := by
    simpa [CameraArray.size] using hid
  simp [CameraSystem.fromJson, h]

/-- C8 as stated fails: the id 256 is outside `[0, 3)`, but read at `int8_t` it
is 0, so a `cam_stats` frame with id 256 overwrites the record of camera 0 and
the camera-stats handler is invoked. -/
theorem C8_frame_id_256_overwrites_camera_0 :
    ¬ (0 ≤ (256 : Int) ∧ (256 : Int) < 3) ∧
    CameraSystem.new.fromJson "Board A" "A"
      (FrameMembers.accessors arduinoJson
        { FrameMembers.empty with type := some "cam_stats", id := some 256, fps := some 30,
                                  width := some 1280, height := some 720 }) =
      ({ CameraSystem.new with
          _cameras :=
            { CameraSystem.new._cameras with
                c0 := { Camera.new with _id := 0, _fps := 30, _width := 1280, _height := 720 } } },
       [Call.cameraStats Handler.none "Board A" "A" 0 30 1280 720]) := by
  constructor <;> decide

/-- C8, amended. A `cam_stats` frame whose id, as the JSON accessor yields it
at `int8_t`, is not in `[0, 3)` leaves the camera system, its three camera
records included, as it was, and no handler is invoked. With ArduinoJson this
holds for every frame id from -128 to 127 outside `[0, 3)`, so for -1 and
3. -/
theorem C8_cam_stats_read_out_of_range (lib : JsonLibrary) (boardName boardId : String)
    (m : FrameMembers) (s : CameraSystem) :
    (¬ (0 ≤ (FrameMembers.accessors lib m).id8 ∧ (FrameMembers.accessors lib m).id8 < 3) →
      s.fromJson boardName boardId
        (FrameMembers.accessors lib { m with type := some "cam_stats" }) = (s, [])) ∧
    (∀ n : Int, -128 ≤ n → n ≤ 127 → ¬ (0 ≤ n ∧ n < 3) →
      s.fromJson boardName boardId
        (FrameMembers.accessors arduinoJson
          { m with type := some "cam_stats", id := some n }) = (s, [])) := by
  constructor
  · intro hid
    exact CameraSystem.fromJson_cam_stats_skipped boardName boardId
      (FrameMembers.accessors lib m) s hid
  · intro n hlo hhi hout
    have hread : (FrameMembers.accessors arduinoJson { m with id := some n }).id8 = n := by
      simp [FrameMembers.accessors, arduinoJson, hlo, hhi]
    exact CameraSystem.fromJson_cam_stats_skipped boardName boardId
      (FrameMembers.accessors arduinoJson { m with id := some n }) s (by rw [hread]; exact hout)

/-- C8, amended, at the ids -1 and 3, on a fresh camera system. -/
theorem C8_cam_stats_read_out_of_range_witness :
    CameraSystem.new.fromJson "Board A" "A"
      (FrameMembers.accessors arduinoJson
        { FrameMembers.empty with type := some "cam_stats", id := some (-1), fps := some 30,
                                  width := some 1280, height := some 720 }) =
      (CameraSystem.new, []) ∧
    CameraSystem.new.fromJson "Board A" "A"
      (FrameMembers.accessors arduinoJson
        { FrameMembers.empty with type := some "cam_stats", id := some 3, fps := some 30,
                                  width := some 1280, height := some 720 }) =
      (CameraSystem.new, []) :=
  ⟨(C8_cam_stats_read_out_of_range arduinoJson "Board A" "A"
      { FrameMembers.empty with fps := some 30, width := some 1280, height := some 720 }
      CameraSystem.new).2 (-1) (by decide) (by decide) (by decide),
   (C8_cam_stats_read_out_of_range arduinoJson "Board A" "A"
      { FrameMembers.empty with fps := some 30, width := some 1280, height := some 720 }
      CameraSystem.new).2 3 (by decide) (by decide) (by decide)⟩

/-! ### Access token -/

/-- C4. With `forceUpdate = false` and a cached expiry later than the clock
reading, `requestAccessToken` returns `HTTP_CODE_OK`, sends no request and
leaves token string and expiry as they were. -/
theorem C4_token_reused (username password : String) (accessToken : Token)
    (millis0 millis1 : Nat) (resp : TokenResponse) (h : accessToken.second > millis0) :
    Client.requestAccessToken username password accessToken false millis0 resp millis1 =
      (HTTP_CODE_OK, accessToken, []) := by
  simp [Client.requestAccessToken, h]

/-- C4 for a token expiring at 300000, asked for at 299999. -/
theorem C4_token_reused_witness :
    (300000 : Nat) > 299999 ∧
    Client.requestAccessToken "user" "secret" ⟨"tok", 300000⟩ false 299999
      ⟨200, some (some "new", 300)⟩ 299999 = (200, ⟨"tok", 300000⟩, []) :=
  ⟨by decide,
   C4_token_reused "user" "secret" ⟨"tok", 300000⟩ 299999 299999
     ⟨200, some (some "new", 300)⟩ (by decide)⟩

/-- C5 as stated fails: at clock reading 0 an answer with
`expires_in = 18446744073709552` makes the cached expiry 384, not
`0 + 18446744073709552 * 1000`. -/
theorem C5_expiry_wraps :
    (Client.requestAccessToken "user" "secret" ⟨"old", 0⟩ false 0
      ⟨200, some (some "tok", 18446744073709552)⟩ 0).2.1 = ⟨"tok", 384⟩ ∧
    (384 : Nat) ≠ 0 + 18446744073709552 * 1000 := by
  constructor
  · decide
  · decide

/-- C5, amended. With `forceUpdate` set, or an expiry not later than the clock
reading, `requestAccessToken` sends one token request. If the answer is
`HTTP_CODE_OK` with a body that decodes to `access_token` and `expires_in`,
the token becomes `access_token` with expiry
`(now + expires_in * 1000) mod 2^64`, `now` being the clock reading when the
answer is stored, and `HTTP_CODE_OK` is returned; the expiry is
`now + expires_in * 1000` whenever that fits 64 bits. If the request fails
with code `c`, `c` is returned and the token is left as it was. -/
theorem C5_token_refreshed (username password : String) (accessToken : Token)
    (forceUpdate : Bool) (millis0 millis1 : Nat) (resp : TokenResponse)
    (h : forceUpdate = true ∨ accessToken.second ≤ millis0) :
    (Client.requestAccessToken username password accessToken forceUpdate millis0 resp
        millis1).2.2 = [HttpRequest.postToken username password] ∧
    (∀ (token : String) (expiresIn : Nat),
      resp.ret = HTTP_CODE_OK → resp.body = some (some token, expiresIn) →
      Client.requestAccessToken username password accessToken forceUpdate millis0 resp
          millis1 =
        (HTTP_CODE_OK, ⟨token, (millis1 + expiresIn * 1000) % 2 ^ 64⟩,
          [HttpRequest.postToken username password]) ∧
      (millis1 + expiresIn * 1000 < 2 ^ 64 →
        (Client.requestAccessToken username password accessToken forceUpdate millis0 resp
          millis1).2.1 = ⟨token, millis1 + expiresIn * 1000⟩)) ∧
    (resp.ret ≠ HTTP_CODE_OK →
      (Client.requestAccessToken username password accessToken forceUpdate millis0 resp
          millis1).1 = resp.ret ∧
      (Client.requestAccessToken username password accessToken forceUpdate millis0 resp
          millis1).2.1 = accessToken) := by
  have hc : (!forceUpdate && decide (accessToken.second > millis0)) = false := by
    rcases h with h | h
    · simp [h]
    · simp; intro _; omega
  refine ⟨?_, ?_, ?_⟩
  · unfold Client.requestAccessToken
    rw [hc]
    by_cases hr : resp.ret = HTTP_CODE_OK
    · cases hb : resp.body <;> simp [hr]
    · simp [hr]
  · intro token expiresIn hr hb
    have hv : Client.requestAccessToken username password accessToken forceUpdate millis0
        resp millis1 =
        (HTTP_CODE_OK, ⟨token, (millis1 + expiresIn * 1000) % 2 ^ 64⟩,
          [HttpRequest.postToken username password]) := by
      unfold Client.requestAccessToken
      rw [hc]
      simp [hr, hb, CStr.toString, Nat.add_mod]
    refine ⟨hv, ?_⟩
    intro hfit
    rw [hv, Nat.mod_eq_of_lt hfit]
  · intro hr
    unfold Client.requestAccessToken
    rw [hc]
    simp [hr]

/-- C5, amended, for a token that expired at 1000: asked for at 1000 and
answered at 1200 with `expires_in = 300`, the token expires at 301200. -/
theorem C5_token_refreshed_witness :
    (false = true ∨ (1000 : Nat) ≤ 1000) ∧
    Client.requestAccessToken "user" "secret" ⟨"old", 1000⟩ false 1000
      ⟨200, some (some "tok", 300)⟩ 1200 =
      (200, ⟨"tok", 301200⟩, [HttpRequest.postToken "user" "secret"]) :=
  ⟨Or.inr (le_refl _),
   ((C5_token_refreshed "user" "secret" ⟨"old", 1000⟩ false 1000 1200
      ⟨200, some (some "tok", 300)⟩ (Or.inr (le_refl _))).2.1 "tok" 300 rfl rfl).1⟩

/-! ### Discovery merge -/

/-- A string of length zero is the empty string. -/
theorem string_eq_empty_of_length (s : String) (h : s.length = 0) : s = "" := by
  cases s with
  | mk data =>
      have hd : data = [] := List.length_eq_zero.mp h
      subst hd
      rfl

/-- Against a non-null pointer `equals` is equality of the strings. -/
theorem equals_some (s t : String) : equals s (some t) = true ↔ s = t := by
  unfold equals
  by_cases h : s.length = 0
  · have hs := string_eq_empty_of_length s h
    subst hs
    simp
    exact eq_comm
  · simp [h]

/-- The search stops at the first board with the id and updates it there. -/
theorem Client.updateExisting_found (doc : BoardJson) (b : Board) (post : List Board)
    (hb : equals b.getId doc.id = true) :
    ∀ pre : List Board, (∀ x ∈ pre, equals x.getId doc.id = false) →
      Client.updateExisting doc (pre ++ b :: post) = (pre ++ b.fromJson doc :: post, true) := by
  intro pre
  induction pre with
  | nil => intro _; simp [Client.updateExisting, hb]
  | cons x xs ih =>
      intro hpre
      have hx := hpre x (List.mem_cons_self _ _)
      have hxs := ih (fun y hy => hpre y (List.mem_cons_of_mem _ hy))
      simp [Client.updateExisting, hx, hxs]

/-- The search leaves a registry without the id as it is. -/
theorem Client.updateExisting_not_found (doc : BoardJson) :
    ∀ boards : List Board, (∀ x ∈ boards, equals x.getId doc.id = false) →
      Client.updateExisting doc boards = (boards, false) := by
  intro boards
  induction boards with
  | nil => intro _; rfl
  | cons x xs ih =>
      intro h
      have hx := h x (List.mem_cons_self _ _)
      have hxs := ih (fun y hy => h y (List.mem_cons_of_mem _ hy))
      simp [Client.updateExisting, hx, hxs]

/-- A board whose id differs from `id` is not matched by the pointer to `id`. -/
theorem equals_false_of_ne (x : Board) (id : String) (h : x._id ≠ id) :
    equals x.getId (some id) = false := by
  cases he : equals x.getId (some id)
  · rfl
  · exact absurd ((equals_some _ _).mp he) h

/-- C6. Merging a descriptor with all four members present whose id is that of
a board of the registry, `b` being the first such board: the registry after
the step is the registry before with `b` carrying the descriptor's name, url
and version, every other member of `b` (so `isOpen` and `lastAlive`) and every
other board being as before, in the same order; the size is unchanged. -/
theorem C6_merge_existing (env : Defines) (c : Client) (pre post : List Board) (b : Board)
    (id name url version : String)
    (hreg : c._boards = pre ++ b :: post) (hpre : ∀ x ∈ pre, x._id ≠ id) (hb : b._id = id) :
    c.mergeStep env (some ⟨some id, some name, some url, some version⟩) =
      { c with _boards :=
          pre ++ { b with _name := name, _url := url, _version := version } :: post } ∧
    (c.mergeStep env (some ⟨some id, some name, some url, some version⟩))._boards.length =
      c._boards.length ∧
    ({ b with _name := name, _url := url, _version := version } : Board).isOpen = b.isOpen ∧
    ({ b with _name := name, _url := url, _version := version } : Board)._lastAlive =
      b._lastAlive := by
  have hfound := Client.updateExisting_found ⟨some id, some name, some url, some version⟩
    b post ((equals_some _ _).mpr hb) pre (fun x hx => equals_false_of_ne x id (hpre x hx))
  have hstep : c.mergeStep env (some ⟨some id, some name, some url, some version⟩) =
      { c with _boards :=
          pre ++ { b with _name := name, _url := url, _version := version } :: post } := by
    simp only [Client.mergeStep, hreg, hfound]
    subst hb
    rfl
  refine ⟨hstep, ?_, rfl, rfl⟩
  rw [hstep, hreg]
  simp

/-- C6 on the registry of the boards `A` (open) and `B`: a descriptor for `B`
renames it and moves it to a new address, `A` stays first and open. -/
theorem C6_merge_existing_witness :
    (sampleRegistry.mergeStep sampleDefines
      (some ⟨some "B", some "Renamed", some "10.0.0.9:3180", some "0.19"⟩))._boards.length = 2 ∧
    (sampleRegistry.mergeStep sampleDefines
      (some ⟨some "B", some "Renamed", some "10.0.0.9:3180", some "0.19"⟩))._boards.map
        (fun x => (x._id, x._name, x._url, x._version, x._isOpen)) =
      [("A", "Board A", "10.0.0.1:3180", "0.18", true),
       ("B", "Renamed", "10.0.0.9:3180", "0.19", false)] := by
  have h := C6_merge_existing sampleDefines sampleRegistry
    [openedBoard.onBoardConnection 0 |>.onCameraStats 0 |>.onCameraSystemState 0
      |>.onDetectionStats 0 |>.onDetectionState 0 |>.onDetectionEvent 0]
    []
    (Board.new sampleDefines "Board B" "B" "0.18" "10.0.0.2:3180"
      |>.onBoardConnection 0 |>.onCameraStats 0 |>.onCameraSystemState 0
      |>.onDetectionStats 0 |>.onDetectionState 0 |>.onDetectionEvent 0)
    "B" "Renamed" "10.0.0.9:3180" "0.19" rfl (by decide) rfl
  refine ⟨h.2.1, ?_⟩
  rw [h.1]
  rfl

/-- C7. Merging a descriptor with all four members present whose id is that of
no board of the registry: with a non-empty url the registry gains exactly one
board at its end, carrying the descriptor's id, name, url and version, Closed
and holding the client's handlers, the boards before it being as they were;
with an empty url the client is left as it was. -/
theorem C7_merge_new (env : Defines) (c : Client) (id name url version : String)
    (hnew : ∀ x ∈ c._boards, x._id ≠ id) :
    (url.isEmpty = false →
      ∃ nb : Board,
        c.mergeStep env (some ⟨some id, some name, some url, some version⟩) =
          { c with _boards := c._boards ++ [nb] } ∧
        nb._id = id ∧ nb._name = name ∧ nb._url = url ∧ nb._version = version ∧
        nb.isOpen = false ∧
        nb._onBoardConnectionCallback = c._onBoardConnectionCallback ∧
        (c.mergeStep env (some ⟨some id, some name, some url, some version⟩))._boards.length =
          c._boards.length + 1) ∧
    (url.isEmpty = true →
      c.mergeStep env (some ⟨some id, some name, some url, some version⟩) = c) := by
  have hnot := Client.updateExisting_not_found ⟨some id, some name, some url, some version⟩
    c._boards (fun x hx => equals_false_of_ne x id (hnew x hx))
  constructor
  · intro hu
    refine ⟨(Board.ofJson env ⟨some id, some name, some url, some version⟩
      |>.onBoardConnection c._onBoardConnectionCallback
      |>.onCameraStats c._onCameraStatsCallback
      |>.onCameraSystemState c._onCameraSystemStateCallback
      |>.onDetectionStats c._onDetectionStatsCallback
      |>.onDetectionState c._onDetectionStateCallback
      |>.onDetectionEvent c._onDetectionEventCallback), ?_, ?_⟩
    · simp only [Client.mergeStep, hnot, Board.getUrl, Board.ofJson, Board.fromJson,
        CStr.toString, Option.getD_some, hu, Bool.not_false, if_true, Client.addBoard]
      rfl
    · refine ⟨rfl, rfl, rfl, rfl, rfl, rfl, ?_⟩
      simp only [Client.mergeStep, hnot, Board.getUrl, Board.ofJson, Board.fromJson,
        CStr.toString, Option.getD_some, hu, Bool.not_false, if_true, Client.addBoard]
      simp
  · intro hu
    simp only [Client.mergeStep, hnot, Board.getUrl, Board.ofJson, Board.fromJson,
      CStr.toString, Option.getD_some, hu, Bool.not_false, if_true]

/-- C7 on the empty registry: the descriptor of board `A` at `10.0.0.1:3180`
makes the registry one Closed board `A`; the same descriptor with an empty url
leaves the client as it was. -/
theorem C7_merge_new_witness :
    (∀ x ∈ Client.new._boards, x._id ≠ "A") ∧
    ((Client.new.mergeStep sampleDefines
      (some ⟨some "A", some "Board A", some "10.0.0.1:3180", some "0.18"⟩))._boards.map
        (fun x => (x._id, x._name, x._url, x._version, x._isOpen)) =
      [("A", "Board A", "10.0.0.1:3180", "0.18", false)]) ∧
    Client.new.mergeStep sampleDefines
      (some ⟨some "A", some "Board A", some "", some "0.18"⟩) = Client.new := by
  have hnew : ∀ x ∈ Client.new._boards, x._id ≠ "A" := by
    intro x hx
    simp [Client.new] at hx
  refine ⟨hnew, ?_, ?_⟩
  · obtain ⟨nb, hstep, hid, hname, hurl, hversion, hopen, _, _⟩ :=
      (C7_merge_new sampleDefines Client.new "A" "Board A" "10.0.0.1:3180" "0.18" hnew).1
        (by decide)
    rw [hstep]
    simp [Client.new, hid, hname, hurl, hversion]
    exact hopen
  · exact (C7_merge_new sampleDefines Client.new "A" "Board A" "" "0.18" hnew).2 (by decide)

/-! ### Credential check of the directory request -/

/-- The guard of `requestBoards` turns a token away, with
`HTTP_CODE_UNAUTHORIZED`, no request and the client as it was, exactly when
the token string is empty or the expiry is strictly earlier than the clock
reading. -/
theorem Client.requestBoards_guard (env : Defines) (accessToken : Token) (millis : Nat)
    (resp : BoardsResponse) (c : Client) :
    (accessToken.first.isEmpty = true ∨ accessToken.second < millis →
      c.requestBoards env accessToken millis resp = (HTTP_CODE_UNAUTHORIZED, c, [])) ∧
    (¬ (accessToken.first.isEmpty = true ∨ accessToken.second < millis) →
      (c.requestBoards env accessToken millis resp).2.2 =
        [HttpRequest.getBoards accessToken.first]) := by
  constructor
  · intro h
    have hg : (accessToken.first.isEmpty || decide (accessToken.second < millis)) = true := by
      rcases h with h | h <;> simp [h]
    simp [Client.requestBoards, hg]
  · intro h
    have hg : (accessToken.first.isEmpty || decide (accessToken.second < millis)) = false := by
      cases he : accessToken.first.isEmpty
      · simp
        exact Nat.le_of_not_lt (fun hlt => h (Or.inr hlt))
      · exact absurd (Or.inl he) h
    unfold Client.requestBoards
    rw [hg]
    by_cases hr : resp.ret = HTTP_CODE_OK <;> simp [hr]

/-- C11. The token `tok` expiring at 1000 is not valid at clock reading 1000
(its expiry is not later than the clock reading), and `requestAccessToken`
treats it so: it sends a token request. `requestBoards` at the same clock
reading does not turn it away: it sends the boards request with that token and
returns what the server answers, here 200 with one new board merged into the
registry. -/
theorem C11_expiry_now_is_not_turned_away :
    ¬ ((1000 : Nat) > 1000) ∧
    (Client.requestAccessToken "user" "secret" ⟨"tok", 1000⟩ false 1000
      ⟨200, some (some "new", 300)⟩ 1000).2.2 = [HttpRequest.postToken "user" "secret"] ∧
    (Client.new.requestBoards sampleDefines ⟨"tok", 1000⟩ 1000
      ⟨200, some ⟨some "A", some "Board A", some "10.0.0.1:3180", some "0.18"⟩, []⟩).1 = 200 ∧
    (Client.new.requestBoards sampleDefines ⟨"tok", 1000⟩ 1000
      ⟨200, some ⟨some "A", some "Board A", some "10.0.0.1:3180", some "0.18"⟩, []⟩).2.2 =
        [HttpRequest.getBoards "tok"] ∧
    (Client.new.requestBoards sampleDefines ⟨"tok", 1000⟩ 1000
      ⟨200, some ⟨some "A", some "Board A", some "10.0.0.1:3180", some "0.18"⟩, []⟩).2.1._boards.length = 1 ∧
    (Client.new.requestBoards sampleDefines ⟨"tok", 1000⟩ 1001
      ⟨200, some ⟨some "A", some "Board A", some "10.0.0.1:3180", some "0.18"⟩, []⟩) =
        (401, Client.new, []) := by
  refine ⟨by decide, ?_, ?_, ?_, ?_, ?_⟩ <;> decide

/-! ### Frames the detector does not know -/

/-- C12. A frame whose `type` is none of `state`, `stats`, `cam_state` and
`cam_stats` (so `motion_state`, any other string, or no string at all) leaves
the detector, its camera system and the three camera records as they were,
and no handler is invoked. -/
theorem C12_unknown_type_ignored (env : Defines) (boardName boardId : String)
    (root : JsonObjectConst) (d : Detector)
    (h1 : root.type ≠ some "state") (h2 : root.type ≠ some "stats")
    (h3 : root.type ≠ some "cam_state") (h4 : root.type ≠ some "cam_stats") :
    d.fromJson env boardName boardId root = (d, []) := by
  by_cases hm : root.type = some "motion_state"
  · simp [Detector.fromJson, hm]
  · simp [Detector.fromJson, CameraSystem.fromJson, h1, h2, h3, h4, hm]

/-- C12 on a detector that has seen a `state` frame: a `motion_state` frame, a
frame of type `hello` and a frame without `type` change nothing and call
nobody. -/
theorem C12_unknown_type_ignored_witness :
    (((Detector.new sampleDefines).fromJson sampleDefines "Board A" "A"
        { emptyFrame with type := some "state", connected := true }).1.fromJson
      sampleDefines "Board A" "A"
        { emptyFrame with type := some "motion_state", connected := false, fps8 := 9 } =
      (((Detector.new sampleDefines).fromJson sampleDefines "Board A" "A"
        { emptyFrame with type := some "state", connected := true }).1, [])) ∧
    ((Detector.new sampleDefines).fromJson sampleDefines "Board A" "A"
        { emptyFrame with type := some "hello", id8 := 1, fps8 := 9 } =
      (Detector.new sampleDefines, [])) ∧
    ((Detector.new sampleDefines).fromJson sampleDefines "Board A" "A"
        { emptyFrame with type := none, id8 := 1, fps8 := 9 } =
      (Detector.new sampleDefines, [])) :=
  ⟨C12_unknown_type_ignored sampleDefines "Board A" "A" _ _
      (by decide) (by decide) (by decide) (by decide),
   C12_unknown_type_ignored sampleDefines "Board A" "A" _ _
      (by decide) (by decide) (by decide) (by decide),
   C12_unknown_type_ignored sampleDefines "Board A" "A" _ _
      (by decide) (by decide) (by decide) (by decide)⟩

/-! ### Previous and current value of a signal -/

/-- C16 as stated fails: a fresh detector (connected false) that has processed
a `state` frame with connected true stores previous false and current true;
likewise a fresh camera system after a `cam_state` frame with opened true. -/
theorem C16_previous_differs_from_current :
    ((Detector.new sampleDefines).fromJson sampleDefines "Board A" "A"
        { emptyFrame with type := some "state", connected := true }).1._wasConnected = false ∧
    ((Detector.new sampleDefines).fromJson sampleDefines "Board A" "A"
        { emptyFrame with type := some "state", connected := true }).1._isConnected = true ∧
    (CameraSystem.new.fromJson "Board A" "A"
        { emptyFrame with type := some "cam_state", isOpened := true }).1._wasOpened = false ∧
    (CameraSystem.new.fromJson "Board A" "A"
        { emptyFrame with type := some "cam_state", isOpened := true }).1._isOpened = true := by
  refine ⟨?_, ?_, ?_, ?_⟩ <;> decide

/-- C16, amended. Once a `state` frame (for the detector) or a `cam_state`
frame (for the camera system) has been processed, the stored previous value
of each signal is the value that was stored as current before the frame, and
the stored current value is the frame's. So previous equals current after the
frame exactly when the frame repeats the value stored before it. -/
theorem C16_previous_is_value_before_frame (env : Defines) (boardName boardId : String)
    (root : JsonObjectConst) (d : Detector) (s : CameraSystem) :
    ((d.fromJson env boardName boardId { root with type := some "state" }).1._wasConnected =
        d._isConnected ∧
     (d.fromJson env boardName boardId { root with type := some "state" }).1._wasRunning =
        d._isRunning ∧
     (d.fromJson env boardName boardId { root with type := some "state" }).1._isConnected =
        root.connected ∧
     (d.fromJson env boardName boardId { root with type := some "state" }).1._isRunning =
        root.running) ∧
    ((s.fromJson boardName boardId { root with type := some "cam_state" }).1._wasOpened =
        s._isOpened ∧
     (s.fromJson boardName boardId { root with type := some "cam_state" }).1._wasRunning =
        s._isRunning ∧
     (s.fromJson boardName boardId { root with type := some "cam_state" }).1._isOpened =
        root.isOpened ∧
     (s.fromJson boardName boardId { root with type := some "cam_state" }).1._isRunning =
        root.isRunning) ∧
    (((d.fromJson env boardName boardId { root with type := some "state" }).1._wasConnected =
        (d.fromJson env boardName boardId { root with type := some "state" }).1._isConnected) ↔
      d._isConnected = root.connected) ∧
    (((s.fromJson boardName boardId { root with type := some "cam_state" }).1._wasOpened =
        (s.fromJson boardName boardId { root with type := some "cam_state" }).1._isOpened) ↔
      s._isOpened = root.isOpened) := by
  refine ⟨?_, ?_, ?_, ?_⟩
  · simp [Detector.fromJson]
  · simp [CameraSystem.fromJson]
  · simp [Detector.fromJson]
  · simp [CameraSystem.fromJson]

/-- C16, amended, on a fresh detector and a `state` frame with connected true
and running false. -/
theorem C16_previous_is_value_before_frame_witness :
    ((Detector.new sampleDefines).fromJson sampleDefines "Board A" "A"
        { emptyFrame with type := some "state", connected := true }).1._wasConnected = false ∧
    ((Detector.new sampleDefines).fromJson sampleDefines "Board A" "A"
        { emptyFrame with type := some "state", connected := true }).1._wasRunning = false ∧
    ((Detector.new sampleDefines).fromJson sampleDefines "Board A" "A"
        { emptyFrame with type := some "state", connected := true }).1._isConnected = true ∧
    ((Detector.new sampleDefines).fromJson sampleDefines "Board A" "A"
        { emptyFrame with type := some "state", connected := true }).1._isRunning = false :=
  (C16_previous_is_value_before_frame sampleDefines "Board A" "A"
    { emptyFrame with connected := true } (Detector.new sampleDefines) CameraSystem.new).1

/-! ### Frames with absent numeric members -/

/-- C13 as stated fails: with ArduinoJson a fresh detector (all numeric fields
`-1`) that receives a `stats` frame without `fps` stores and reports `fps = 0`,
and one that receives a `state` frame without `numThrows` stores and reports
`numThrows = 0`. -/
theorem C13_absent_member_is_not_minus_one :
    ((Detector.new sampleDefines).fromJson sampleDefines "Board A" "A"
        (FrameMembers.accessors arduinoJson
          { FrameMembers.empty with type := some "stats", width := some 1280, height := some 720 })).1._fps = 0 ∧
    ((Detector.new sampleDefines).fromJson sampleDefines "Board A" "A"
        (FrameMembers.accessors arduinoJson
          { FrameMembers.empty with type := some "stats", width := some 1280, height := some 720 })).2 =
      [Call.detectionStats Handler.none "Board A" "A" 0 1280 720] ∧
    ((Detector.new sampleDefines).fromJson sampleDefines "Board A" "A"
        (FrameMembers.accessors arduinoJson
          { FrameMembers.empty with type := some "state", connected := some true, running := some false })).1._numThrows = 0 ∧
    ((Detector.new sampleDefines).fromJson sampleDefines "Board A" "A"
        (FrameMembers.accessors arduinoJson
          { FrameMembers.empty with type := some "state", connected := some true, running := some false })).2 =
      [Call.detectionState Handler.none "Board A" "A" 2 0 0,
       Call.detectionEvent Handler.none "Board A" "A" 0 0] ∧
    (0 : Int) ≠ -1 := by
  refine ⟨?_, ?_, ?_, ?_, ?_⟩ <;> decide

/-- C13, amended. A `stats` or `state` frame is processed whichever of its
numeric members are absent: the handler is invoked, and each of `fps`,
`width`, `height` (for `stats`) and `numThrows` (for `state`) is stored and
reported as the member's value, read at the type of the field (`int8_t` for
`fps`, `int16_t` for the others), when present and as the value the accessor
of the JSON library yields for an absent member otherwise, whatever was
stored before. -/
theorem C13_absent_member_is_accessor_value (lib : JsonLibrary) (env : Defines)
    (boardName boardId : String) (m : FrameMembers) (d : Detector) :
    d.fromJson env boardName boardId (FrameMembers.accessors lib
          { m with type := some "stats" }) =
      ({ d with _fps := (m.fps.map lib.int8).getD lib.absentInt,
                _width := (m.width.map lib.int16).getD lib.absentInt,
                _height := (m.height.map lib.int16).getD lib.absentInt },
       [Call.detectionStats d._onDetectionStatsCallback boardName boardId
          ((m.fps.map lib.int8).getD lib.absentInt)
          ((m.width.map lib.int16).getD lib.absentInt)
          ((m.height.map lib.int16).getD lib.absentInt)]) ∧
    d.fromJson env boardName boardId
        (FrameMembers.accessors lib
          { m with type := some "stats", fps := none, width := none, height := none }) =
      ({ d with _fps := lib.absentInt, _width := lib.absentInt, _height := lib.absentInt },
       [Call.detectionStats d._onDetectionStatsCallback boardName boardId
          lib.absentInt lib.absentInt lib.absentInt]) ∧
    (d.fromJson env boardName boardId
        (FrameMembers.accessors lib
          { m with type := some "state" })).1._numThrows =
      (m.numThrows.map lib.int16).getD lib.absentInt ∧
    (d.fromJson env boardName boardId
        (FrameMembers.accessors lib
          { m with type := some "state", numThrows := none })).1._numThrows =
      lib.absentInt ∧
    (d.fromJson env boardName boardId
        (FrameMembers.accessors lib
          { m with type := some "state", numThrows := none })).2.head? =
      some (Call.detectionState d._onDetectionStateCallback boardName boardId
        (2 * boolToInt (m.connected.getD lib.absentBool) - boolToInt d._isConnected)
        (2 * boolToInt (m.running.getD lib.absentBool) - boolToInt d._isRunning)
        lib.absentInt) := by
  refine ⟨?_, ?_, ?_, ?_, ?_⟩ <;>
    simp [Detector.fromJson, FrameMembers.accessors]

/-- C13, amended, with ArduinoJson on a detector that has stored `fps = 30`: a
`stats` frame with only `width` and `height` stores and reports `fps = 0`. -/
theorem C13_absent_member_is_accessor_value_witness :
    ({ Detector.new sampleDefines with _fps := 30 } : Detector).fromJson sampleDefines
        "Board A" "A"
        (FrameMembers.accessors arduinoJson
          { FrameMembers.empty with type := some "stats", width := some 1280, height := some 720 }) =
      ({ Detector.new sampleDefines with _fps := 0, _width := 1280, _height := 720 },
       [Call.detectionStats Handler.none "Board A" "A" 0 1280 720]) :=
  (C13_absent_member_is_accessor_value arduinoJson sampleDefines "Board A" "A"
    { FrameMembers.empty with width := some 1280, height := some 720 }
    { Detector.new sampleDefines with _fps := 30 }).1

/-! ### Subscriptions -/

/-- After a board's subscription function for kind `k`, every slot for `k` in
the board and below holds the handler. -/
theorem Board.slots_on_same (k : EventKind) (h : Handler) (b : Board) :
    ∀ x ∈ (b.on k h).slots k, x = h := by
  intro x hx
  cases k <;>
    simp [Board.on, Board.slots, Board.onBoardConnection, Board.onCameraStats,
      Board.onCameraSystemState, Board.onDetectionStats, Board.onDetectionState,
      Board.onDetectionEvent, Detector.onCameraStats, Detector.onCameraSystemState,
      Detector.onDetectionStats, Detector.onDetectionState, Detector.onDetectionEvent,
      CameraSystem.onCameraStats, CameraSystem.onCameraSystemState,
      Camera.onCameraStats] at hx <;>
    exact hx

/-- A board's subscription function for kind `k` leaves the slots of every
other kind as they were. -/
theorem Board.slots_on_other (k k' : EventKind) (hne : k' ≠ k) (h : Handler) (b : Board) :
    (b.on k h).slots k' = b.slots k' := by
  cases k <;> cases k' <;> first
    | exact absurd rfl hne
    | rfl

/-- The client's subscription function applies the board's to every board. -/
theorem Client.on_boards (k : EventKind) (h : Handler) (c : Client) :
    (c.on k h)._boards = c._boards.map (Board.on k h) := by
  cases k <;> rfl

/-- The client's subscription function for kind `k` stores the handler in the
client's slot for `k` and in no other slot of the client. -/
theorem Client.slot_on (k k' : EventKind) (h : Handler) (c : Client) :
    (c.on k h).slot k' = if k' = k then h else c.slot k' := by
  cases k <;> cases k' <;> rfl

/-- The board `addBoard` stores holds the client's handler in every slot. -/
theorem Client.addBoard_slots (board : Board) (c : Client) :
    ∃ nb : Board, (c.addBoard board)._boards = c._boards ++ [nb] ∧
      nb._id = board._id ∧
      ∀ (k' : EventKind) (x : Handler), x ∈ nb.slots k' → x = c.slot k' := by
  refine ⟨_, rfl, rfl, ?_⟩
  intro k' x hx
  cases k' <;>
    simp [Board.slots, Board.onBoardConnection, Board.onCameraStats,
      Board.onCameraSystemState, Board.onDetectionStats, Board.onDetectionState,
      Board.onDetectionEvent, Detector.onCameraStats, Detector.onCameraSystemState,
      Detector.onDetectionStats, Detector.onDetectionState, Detector.onDetectionEvent,
      CameraSystem.onCameraStats, CameraSystem.onCameraSystemState,
      Camera.onCameraStats] at hx <;>
    simpa [Client.slot] using hx

/-- C14. After the client's subscription function for kind `k` with handler
`h`: the client's slot for `k` holds `h`; the registry has the boards it had,
and in each of them every slot for `k`, in the board, its detector, its camera
system and its three cameras as far as they have one, holds `h`, whatever it
held before; for every other kind the client's slot and the slots of every
board and its components are as they were; and a board added afterwards, by
`addBoard` or by the merge step of discovery for a new id with a url, holds in
every slot of every kind the handler the client holds for that kind. -/
theorem C14_subscription_cascades (env : Defines) (k : EventKind) (h : Handler)
    (c : Client) :
    (c.on k h).slot k = h ∧
    (c.on k h)._boards.length = c._boards.length ∧
    (∀ b ∈ (c.on k h)._boards, ∀ x ∈ b.slots k, x = h) ∧
    (∀ k' : EventKind, k' ≠ k →
      (c.on k h).slot k' = c.slot k' ∧
      (c.on k h)._boards.map (Board.slots k') = c._boards.map (Board.slots k')) ∧
    (∀ board : Board, ∃ nb : Board,
      ((c.on k h).addBoard board)._boards = (c.on k h)._boards ++ [nb] ∧
      ∀ (k' : EventKind) (x : Handler), x ∈ nb.slots k' → x = (c.on k h).slot k') ∧
    (∀ doc : BoardJson,
      (∀ x ∈ (c.on k h)._boards, equals x.getId doc.id = false) →
      (Board.ofJson env doc).getUrl.isEmpty = false →
      ∃ nb : Board,
        ((c.on k h).mergeStep env (some doc))._boards = (c.on k h)._boards ++ [nb] ∧
        ∀ (k' : EventKind) (x : Handler), x ∈ nb.slots k' → x = (c.on k h).slot k') := by
  refine ⟨?_, ?_, ?_, ?_, ?_, ?_⟩
  · simp [Client.slot_on]
  · simp [Client.on_boards]
  · intro b hb x hx
    rw [Client.on_boards, List.mem_map] at hb
    obtain ⟨b0, _, rfl⟩ := hb
    exact Board.slots_on_same k h b0 x hx
  · intro k' hne
    refine ⟨by simp [Client.slot_on, hne], ?_⟩
    rw [Client.on_boards, List.map_map]
    apply List.map_congr_left
    intro b _
    exact Board.slots_on_other k k' hne h b
  · intro board
    obtain ⟨nb, h1, _, h2⟩ := Client.addBoard_slots board (c.on k h)
    exact ⟨nb, h1, h2⟩
  · intro doc hnew hurl
    have hnot := Client.updateExisting_not_found doc (c.on k h)._boards hnew
    obtain ⟨nb, h1, _, h2⟩ := Client.addBoard_slots (Board.ofJson env doc) (c.on k h)
    refine ⟨nb, ?_, h2⟩
    simp only [Client.mergeStep, hnot, hurl, Bool.not_false, if_true]
    simpa [Client.addBoard] using h1

/-- C14 on the registry of the boards `A` and `B`, all slots holding the empty
handler: after `onCameraStats` with handler `5` the client and the six
camera-statistics slots of either board hold `5`, the two detection-statistics
slots of either board still hold the empty handler. -/
theorem C14_subscription_cascades_witness :
    (sampleRegistry.on EventKind.cameraStats 5).slot EventKind.cameraStats = 5 ∧
    (sampleRegistry.on EventKind.cameraStats 5)._boards.length = 2 ∧
    (sampleRegistry.on EventKind.cameraStats 5)._boards.map
        (Board.slots EventKind.cameraStats) = [[5, 5, 5, 5, 5, 5], [5, 5, 5, 5, 5, 5]] ∧
    (sampleRegistry.on EventKind.cameraStats 5)._boards.map
        (Board.slots EventKind.detectionStats) = [[0, 0], [0, 0]] := by
  have h := C14_subscription_cascades sampleDefines EventKind.cameraStats 5 sampleRegistry
  refine ⟨h.1, h.2.1, by decide, ?_⟩
  rw [(h.2.2.2.1 EventKind.detectionStats (by decide)).2]
  decide

/-! ### One board per id -/

/-- Against any pointer `equals` is equality with the string the pointer
converts to. -/
theorem equals_iff (s : String) (cstr : CStr) : equals s cstr = true ↔ s = cstr.toString := by
  cases cstr with
  | some t => simpa [CStr.toString] using equals_some s t
  | none =>
      unfold equals
      by_cases h : s.length = 0
      · have hs := string_eq_empty_of_length s h
        subst hs
        simp [CStr.toString]
      · have hne : s ≠ "" := fun he => h (by rw [he]; rfl)
        simp [h, CStr.toString, hne]

/-- The search loop changes no id, and when it finds nothing no board carries
the id of the document. -/
theorem Client.updateExisting_ids (doc : BoardJson) :
    ∀ boards : List Board,
      (Client.updateExisting doc boards).1.map Board.getId = boards.map Board.getId ∧
      ((Client.updateExisting doc boards).2 = false →
        doc.id.toString ∉ boards.map Board.getId) := by
  intro boards
  induction boards with
  | nil => simp [Client.updateExisting]
  | cons b bs ih =>
      by_cases hb : equals b.getId doc.id = true
      · have hid : b.getId = doc.id.toString := (equals_iff _ _).mp hb
        simp only [Client.updateExisting, hb, if_true]
        refine ⟨?_, by simp⟩
        show doc.id.toString :: List.map Board.getId bs = b.getId :: List.map Board.getId bs
        rw [hid]
      · have hid : ¬ b.getId = doc.id.toString := fun he => hb ((equals_iff _ _).mpr he)
        simp only [Client.updateExisting, hb]
        refine ⟨by simp [ih.1], ?_⟩
        intro hf
        have := ih.2 hf
        simp only [List.map_cons, List.mem_cons, not_or]
        exact ⟨fun he => hid he.symm, this⟩

/-- The three outcomes of one iteration of the merge loop on a document. -/
theorem Client.mergeStep_some (env : Defines) (doc : BoardJson) (c : Client) :
    ((Client.updateExisting doc c._boards).2 = true →
      c.mergeStep env (some doc) =
        { c with _boards := (Client.updateExisting doc c._boards).1 }) ∧
    ((Client.updateExisting doc c._boards).2 = false →
      (Board.ofJson env doc).getUrl.isEmpty = true →
      c.mergeStep env (some doc) =
        { c with _boards := (Client.updateExisting doc c._boards).1 }) ∧
    ((Client.updateExisting doc c._boards).2 = false →
      (Board.ofJson env doc).getUrl.isEmpty = false →
      c.mergeStep env (some doc) =
        ({ c with _boards := (Client.updateExisting doc c._boards).1 } : Client).addBoard
          (Board.ofJson env doc)) := by
  refine ⟨?_, ?_, ?_⟩
  · intro hf
    simp [Client.mergeStep, hf]
  · intro hf hurl
    simp [Client.mergeStep, hf, hurl]
  · intro hf hurl
    simp [Client.mergeStep, hf, hurl]

/-- One iteration of the merge loop keeps the ids of the registry distinct. -/
theorem Client.mergeStep_nodup (env : Defines) (r : Option BoardJson) (c : Client)
    (h : (c._boards.map Board.getId).Nodup) :
    ((c.mergeStep env r)._boards.map Board.getId).Nodup := by
  cases r with
  | none => exact h
  | some doc =>
      have hu := Client.updateExisting_ids doc c._boards
      have hm := Client.mergeStep_some env doc c
      cases hf : (Client.updateExisting doc c._boards).2
      · cases hurl : (Board.ofJson env doc).getUrl.isEmpty
        · rw [hm.2.2 hf hurl]
          obtain ⟨nb, hb, hid, _⟩ := Client.addBoard_slots (Board.ofJson env doc)
            ({ c with _boards := (Client.updateExisting doc c._boards).1 } : Client)
          rw [hb, List.map_append]
          have hnew := hu.2 hf
          have hid2 : nb.getId = doc.id.toString := hid
          apply List.Nodup.append
          · show (List.map Board.getId (Client.updateExisting doc c._boards).1).Nodup
            rw [hu.1]
            exact h
          · exact List.nodup_singleton _
          · intro a ha hb2
            have ha2 : a ∈ List.map Board.getId (Client.updateExisting doc c._boards).1 := ha
            rw [hu.1] at ha2
            simp only [List.map_cons, List.map_nil, List.mem_singleton] at hb2
            rw [hb2, hid2] at ha2
            exact hnew ha2
        · rw [hm.2.1 hf hurl]
          show (List.map Board.getId (Client.updateExisting doc c._boards).1).Nodup
          rw [hu.1]
          exact h
      · rw [hm.1 hf]
        show (List.map Board.getId (Client.updateExisting doc c._boards).1).Nodup
        rw [hu.1]
        exact h

/-- The merge loop keeps the ids of the registry distinct, whatever the
stream holds. -/
theorem Client.mergeLoop_nodup (env : Defines) (stream : List (Option BoardJson)) :
    ∀ c : Client, (c._boards.map Board.getId).Nodup →
      ((stream.foldl (fun acc r => Client.mergeStep env r acc) c)._boards.map
        Board.getId).Nodup := by
  induction stream with
  | nil => intro c h; exact h
  | cons r rs ih =>
      intro c h
      exact ih _ (Client.mergeStep_nodup env r c h)

/-- C15. If no two boards of the registry share an id, then after the merge
loop of `requestBoards` over any stream of deserialization results, with
repeated ids, with documents lacking members and with results that are errors,
no two boards share an id; so too after `requestBoards` itself, whatever the
token, the clock reading and the answer. -/
theorem C15_discovery_keeps_ids_distinct (env : Defines) (c : Client)
    (h : (c._boards.map Board.getId).Nodup) :
    (∀ stream : List (Option BoardJson),
      ((stream.foldl (fun acc r => Client.mergeStep env r acc) c)._boards.map
        Board.getId).Nodup) ∧
    (∀ (accessToken : Token) (millis : Nat) (resp : BoardsResponse),
      ((c.requestBoards env accessToken millis resp).2.1._boards.map Board.getId).Nodup) := by
  refine ⟨fun stream => Client.mergeLoop_nodup env stream c h, ?_⟩
  intro accessToken millis resp
  unfold Client.requestBoards
  by_cases hg : (accessToken.first.isEmpty || decide (accessToken.second < millis)) = true
  · simpa [hg] using h
  · by_cases hr : resp.ret = HTTP_CODE_OK
    · simp only [hg, hr, if_true]
      exact Client.mergeLoop_nodup env (resp.first :: resp.rest) c h
    · simpa [hg, hr] using h

/-- C15 on the registry of the boards `A` and `B`: a stream holding a document
for `B`, an error, a document for `C` twice and a document without id leaves
four boards with the ids `A`, `B`, `C` and the empty string. -/
theorem C15_discovery_keeps_ids_distinct_witness :
    (sampleRegistry._boards.map Board.getId).Nodup ∧
    ((([some ⟨some "B", some "Renamed", some "10.0.0.9:3180", some "0.19"⟩,
        none,
        some ⟨some "C", some "Board C", some "10.0.0.3:3180", some "0.18"⟩,
        some ⟨some "C", some "Board C", some "10.0.0.4:3180", some "0.18"⟩,
        some ⟨none, some "Nameless", some "10.0.0.5:3180", none⟩] :
          List (Option BoardJson)).foldl
        (fun acc r => Client.mergeStep sampleDefines r acc) sampleRegistry)._boards.map
        Board.getId).Nodup ∧
    (([some ⟨some "B", some "Renamed", some "10.0.0.9:3180", some "0.19"⟩,
        none,
        some ⟨some "C", some "Board C", some "10.0.0.3:3180", some "0.18"⟩,
        some ⟨some "C", some "Board C", some "10.0.0.4:3180", some "0.18"⟩,
        some ⟨none, some "Nameless", some "10.0.0.5:3180", none⟩] :
          List (Option BoardJson)).foldl
        (fun acc r => Client.mergeStep sampleDefines r acc) sampleRegistry)._boards.map
        Board.getId = ["A", "B", "C", ""] := by
  have h0 : (sampleRegistry._boards.map Board.getId).Nodup := by decide
  exact ⟨h0, (C15_discovery_keeps_ids_distinct sampleDefines sampleRegistry h0).1 _, by decide⟩

end autodarts
